import Mathlib

/-!
Shallow embedding of `snuo1mpy/preprocessor.py` (class `Preprocessor`).

Header values are modelled by `HVal` (strings and integers), a summary-table
row by an association list from header keyword to value, and the key→path
manifests (`biaspaths`, `darkpaths`, `flatpaths`) by association lists from
key tuples (lists of `HVal`) to path strings, with Python-dict insertion
semantics.  File-system effects of `__init__` are modelled as an event list,
and the text manifests as lists of lines.  All definitions are transcribed
from the source; `specCalibKey` alone is written from the specification text,
for the refinement comparison of the calibration-key claim.
-/

/-- A FITS header value: the source manipulates strings and numbers
(`OBJECT`, `EXPTIME`, ...).  Numeric header values are modelled as integers. -/
inductive HVal
  | str : String → HVal
  | int : Int → HVal
deriving DecidableEq

/-- Python `str(x)` on a header value. -/
def render : HVal → String
  | HVal.str s => s
  | HVal.int n => toString n

/-- One row of the summary table: keyword → value. -/
abbrev Row : Type := List (String × HVal)

/-- Column access `row[k]` (first matching column; absent keys default). -/
def rowGet (r : Row) (k : String) : HVal :=
  match r.find? (fun kv => kv.1 == k) with
  | some kv => kv.2
  | none => HVal.str ""

/-- A key→path manifest (`biaspaths` / `darkpaths` / `flatpaths`). -/
abbrev Manifest : Type := List (List HVal × String)

/-- Python dict assignment `m[k] = v` (insertion order preserved, existing
keys updated in place). -/
def dictInsert (m : Manifest) (k : List HVal) (v : String) : Manifest :=
  if m.any (fun kv => kv.1 == k) then
    m.map (fun kv => if kv.1 = k then (k, v) else kv)
  else m ++ [(k, v)]

/-- Python dict read `m[k]` / `m.get(k)`: value of the first matching key. -/
def lookupD (m : Manifest) (k : List HVal) : Option String :=
  (m.find? (fun kv => kv.1 == k)).map (fun kv => kv.2)

/-- The configuration arguments of `Preprocessor.__init__` that the claims
depend on (type keys/values and group keys per calibration role). -/
structure Config where
  bias_type_key : List String
  bias_type_val : List HVal
  bias_group_key : List String
  dark_type_key : List String
  dark_type_val : List HVal
  dark_group_key : List String
  flat_type_key : List String
  flat_type_val : List HVal
  flat_group_key : List String

/-- The default configuration of `Preprocessor.__init__`. -/
def cfgDef : Config :=
  { bias_type_key := ["OBJECT"], bias_type_val := [HVal.str "bias"],
    bias_group_key := [],
    dark_type_key := ["OBJECT"], dark_type_val := [HVal.str "dark"],
    dark_group_key := ["EXPTIME"],
    flat_type_key := ["OBJECT"], flat_type_val := [HVal.str "skyflat"],
    flat_group_key := ["FILTER"] }

/-- Observable events of `Preprocessor.__init__`, in program order:
the `Path(rawdir).glob('*.fit')` directory scan (file-system read, line 65),
the `KeyError` raises of the subset checks (lines 82–88), the
exposure-time warning (lines 90–92), and normal completion. -/
inductive InitEvent
  | scanRawdir
  | raiseKeyError
  | warnNoExptime
  | finish
deriving DecidableEq

/-- `_exptime_keys` of `__init__`. -/
def exptimeKeys : List String := ["EXPTIME", "EXPOSURE", "EXPOS"]

/-- `set(a).issubset(set(b))`. -/
def subsetB (a b : List String) : Bool := a.all (fun k => b.contains k)

/-- Event trace of `Preprocessor.__init__`: the raw-directory glob happens
first (line 65); then the two subset checks may raise `KeyError`
(lines 82–88); then the exposure-time heuristic may warn (lines 90–92,
checking `dark_group_key` only); then construction completes. -/
def initEvents (c : Config) : List InitEvent :=
  [InitEvent.scanRawdir] ++
  (if subsetB c.bias_group_key c.dark_group_key = false then
     [InitEvent.raiseKeyError]
   else if subsetB c.bias_group_key c.flat_group_key = false then
     [InitEvent.raiseKeyError]
   else
     (if exptimeKeys.all (fun k => !(c.dark_group_key.contains k)) then
        [InitEvent.warnNoExptime]
      else []) ++ [InitEvent.finish])

/-- `true` iff no file-system event precedes the first `KeyError` raise in
the trace (vacuously `true` when nothing is raised). -/
def ioFreeUntilRaise : List InitEvent → Bool
  | [] => true
  | InitEvent.raiseKeyError :: _ => true
  | InitEvent.scanRawdir :: _ => false
  | _ :: rest => ioFreeUntilRaise rest

/-- Python `str.split(sep)` for a one-character separator, on the character
list of the string (`rsplit` without a maxsplit argument behaves
identically).  `splitOnChar c "" = [""]`, and separators at the ends
produce empty fields, exactly as in Python. -/
def splitOnChar (c : Char) : List Char → List (List Char)
  | [] => [[]]
  | x :: xs =>
    let r := splitOnChar c xs
    if x = c then [] :: r
    else
      match r with
      | [] => [[x]]
      | y :: ys => (x :: y) :: ys

/-- The `try:` block of `organize_raw` (lines 206–215):
`sp = fpath.name.rsplit('-')`, `obj_raw = sp[0]`, `counter = sp[-1][:4]`,
`filt_bd = sp[-1][4:]`.  Returns `none` exactly when an `IndexError`
would be raised (indexing an empty list). -/
def parseRawName (name : List Char) : Option (List Char × List Char × List Char) :=
  let sp := splitOnChar '-' name
  match sp.head?, sp.getLast? with
  | some o, some last => some (o, last.take 4, last.drop 4)
  | _, _ => none

/-- Character-list lowercase, for Python `.lower()`. -/
def lowerChars (l : List Char) : List Char := l.map Char.toLower

/-- The `OBJECT` normalisation of `organize_raw` (lines 228–247): bias/dark
from header `IMAGETYP`, skyflat/domeflat from the filename token, otherwise
the filename token itself. -/
def classifyObj (hdr : Row) (obj_raw : List Char) : List Char :=
  let imgtyp := lowerChars (render (rowGet hdr "IMAGETYP")).data
  if imgtyp = "bias".data ∨ imgtyp = "bias frame".data then "bias".data
  else if imgtyp = "dark".data ∨ imgtyp = "dark frame".data then "dark".data
  else if lowerChars obj_raw = "skyflat".data ∨ lowerChars obj_raw = "domeflat".data then
    lowerChars obj_raw
  else obj_raw

/-- One iteration of the `organize_raw` loop body for a raw path: `none`
models the `except IndexError` branch (relocation to the `useless`
quarantine directory and `continue`); otherwise the renamed path (the
external `yfu.fitsrenamer` is the oracle `rename`) together with whether
the frame is appended to `objpaths` (line 304). -/
def organizeOne (hdrs : String → Row) (rename : String → String) (f : String) :
    Option (String × Bool) :=
  match parseRawName f.data with
  | none => none
  | some (obj_raw, _counter, _filt_bd) =>
    let obj := classifyObj (hdrs f) obj_raw
    let isObj := !(obj = "skyflat".data ∨ obj = "domeflat".data ∨
                   obj = "bias".data ∨ obj = "dark".data : Bool)
    some (rename f, isObj)

/-- Outcome of `organize_raw` over `self.rawpaths`: renamed-path manifest,
object manifest, quarantined files, and the raw paths actually iterated. -/
structure OrganizeResult where
  newpaths : List String
  objpaths : List String
  useless : List String
  processedSources : List String

/-- `Preprocessor.organize_raw` (lines 192–325), restricted to the
path-level bookkeeping the claims are about. -/
def organize_raw (hdrs : String → Row) (rename : String → String)
    (rawpaths : List String) : OrganizeResult :=
  { newpaths := rawpaths.filterMap (fun f => (organizeOne hdrs rename f).map (fun p => p.1)),
    objpaths := rawpaths.filterMap (fun f =>
      match organizeOne hdrs rename f with
      | some (p, true) => some p
      | _ => none),
    useless := rawpaths.filter (fun f => (organizeOne hdrs rename f).isNone),
    processedSources := rawpaths.filter (fun f => (organizeOne hdrs rename f).isSome) }

/-- Lexicographic comparison of character lists via code points, modelling
Python's comparison of `Path` objects in `self.rawpaths.sort()`. -/
def lexLe : List Char → List Char → Bool
  | [], _ => true
  | _ :: _, [] => false
  | a :: as, b :: bs =>
    decide (a.toNat < b.toNat) || (decide (a.toNat = b.toNat) && lexLe as bs)

/-- Path order used by `self.rawpaths.sort()`. -/
def pathLe (a b : String) : Prop := lexLe a.data b.data = true

instance : DecidableRel pathLe := fun a b =>
  inferInstanceAs (Decidable (lexLe a.data b.data = true))

/-- `fnmatch` of a file name against the glob pattern `'*.fit'`. -/
def matchFit (s : String) : Bool :=
  List.isPrefixOf ".fit".data.reverse s.data.reverse

/-- `self.rawpaths = list(Path(rawdir).glob('*.fit')); self.rawpaths.sort()`
(lines 65–66), over the directory listing `files`. -/
def rawScan (files : List String) : List String :=
  List.insertionSort pathLe (files.filter matchFit)

/-- A pandas `groupby` key: old-pandas iteration yields a scalar when the
key column list has a single element, a tuple otherwise (the source's
`isinstance(bias_val, tuple)` checks rely on exactly this). -/
inductive GroupVal
  | scalar : HVal → GroupVal
  | tup : List HVal → GroupVal
deriving DecidableEq

/-- The group key of a row for the column list `cols`. -/
def keyOf (cols : List String) (r : Row) : GroupVal :=
  match cols with
  | [c] => GroupVal.scalar (rowGet r c)
  | _ => GroupVal.tup (cols.map (fun c => rowGet r c))

/-- `st.groupby(cols)`: the distinct key values, each with its member rows
(the source iterates groups only; their order is irrelevant to the claims). -/
def groupby (cols : List String) (rows : List Row) : List (GroupVal × List Row) :=
  ((rows.map (keyOf cols)).dedup).map
    (fun g => (g, rows.filter (fun r => decide (keyOf cols r = g))))

/-- The type-selection loop `for k, v in zip(type_key, type_val): st = st[st[k] == v]`. -/
def cropByType (tk : List String) (tv : List HVal) (rows : List Row) : List Row :=
  rows.filter (fun r => (tk.zip tv).all (fun kv => decide (rowGet r kv.1 = kv.2)))

/-- `if not isinstance(v, tuple): v = tuple([v])` — the conversion used for
`dark_val` (line 451) and `flat_val` (line 588): no stringification. -/
def tupVal : GroupVal → List HVal
  | GroupVal.tup t => t
  | GroupVal.scalar v => [v]

/-- `if not isinstance(v, tuple): v = tuple([str(v)])` — the conversion used
for `bias_val` in `make_bias` (line 376): the scalar is stringified. -/
def tupValStr : GroupVal → List HVal
  | GroupVal.tup t => t
  | GroupVal.scalar v => [HVal.str (render v)]

/-- `delimiter.join([str(x) for x in vals]) + ".fits"`. -/
def fnameOf (delim : String) (vals : List HVal) : String :=
  String.intercalate delim (vals.map render) ++ ".fits"

/-- Bias-key construction of `make_dark` (lines 466–471):
`corr_bias = tuple(self.bias_type_val)`, extended by the first row's
`bias_group_key` values when `bias_group_key` is non-empty. -/
def darkCorrBias (cfg : Config) (dark_group : List Row) : List HVal :=
  let corr := cfg.bias_type_val
  if cfg.bias_group_key.isEmpty then corr
  else corr ++ cfg.bias_group_key.map (fun k => rowGet (dark_group.headD []) k)

/-- Bias-key construction of `make_flat` (lines 551–556). -/
def flatCorrBias (cfg : Config) (flat_group : List Row) : List HVal :=
  let corr := cfg.bias_type_val
  if cfg.bias_group_key.isEmpty then corr
  else corr ++ cfg.bias_group_key.map (fun k => rowGet (flat_group.headD []) k)

/-- Dark-key construction of `make_flat` (lines 563–568). -/
def flatCorrDark (cfg : Config) (flat_group : List Row) : List HVal :=
  let corr := cfg.dark_type_val
  if cfg.dark_group_key.isEmpty then corr
  else corr ++ cfg.dark_group_key.map (fun k => rowGet (flat_group.headD []) k)

/-- Bias-key construction of `do_preproc` (lines 656–661), over the summary
rows matching the object frame's file path. -/
def preprocCorrBias (cfg : Config) (rows : List Row) : List HVal :=
  let corr := cfg.bias_type_val
  if cfg.bias_group_key.isEmpty then corr
  else corr ++ cfg.bias_group_key.map (fun k => rowGet (rows.headD []) k)

/-- Dark-key construction of `do_preproc` (lines 672–677). -/
def preprocCorrDark (cfg : Config) (rows : List Row) : List HVal :=
  let corr := cfg.dark_type_val
  if cfg.dark_group_key.isEmpty then corr
  else corr ++ cfg.dark_group_key.map (fun k => rowGet (rows.headD []) k)

/-- Flat-key construction of `do_preproc` (lines 688–693). -/
def preprocCorrFlat (cfg : Config) (rows : List Row) : List HVal :=
  let corr := cfg.flat_type_val
  if cfg.flat_group_key.isEmpty then corr
  else corr ++ cfg.flat_group_key.map (fun k => rowGet (rows.headD []) k)

/-- Modelled from the spec's words, for the refinement comparison of the
calibration-lookup claim: the lookup key is the type-value tuple
concatenated with the subject's group-key values, in group-key order. -/
def specCalibKey (tv : List HVal) (gk : List String) (v : Row) : List HVal :=
  tv ++ gk.map (fun k => rowGet v k)

/-- The dark groups of `make_dark`:
`st` cropped by type then grouped by `self.dark_key` (lines 435–446). -/
def dgroups (cfg : Config) (summary : List Row) : List (GroupVal × List Row) :=
  groupby (cfg.dark_type_key ++ cfg.dark_group_key)
    (cropByType cfg.dark_type_key cfg.dark_type_val summary)

/-- The flat groups of `make_flat` (lines 532–543). -/
def fgroups (cfg : Config) (summary : List Row) : List (GroupVal × List Row) :=
  groupby (cfg.flat_type_key ++ cfg.flat_group_key)
    (cropByType cfg.flat_type_key cfg.flat_type_val summary)

/-- The bias groups of `make_bias` (lines 360–371). -/
def bgroups (cfg : Config) (summary : List Row) : List (GroupVal × List Row) :=
  groupby (cfg.bias_type_key ++ cfg.bias_group_key)
    (cropByType cfg.bias_type_key cfg.bias_type_val summary)

/-- `Preprocessor.make_bias` (lines 358–385): one combined frame per group,
manifest key `tuple(bias_val)` (with the stringified-scalar conversion),
path `Path(savedir) / fname`. -/
def make_bias (cfg : Config) (summary : List Row) (sd delim : String) : Manifest :=
  (bgroups cfg summary).foldl
    (fun m g =>
      let bv := tupValStr g.1
      dictInsert m bv (sd ++ "/" ++ fnameOf delim bv)) []

/-- `List.mapM` specialised to `Except` with explicit structural recursion:
the list is processed left to right and the first error aborts, exactly as
an uncaught Python exception aborts the `for` loop. -/
def mapME {ε α β : Type} (f : α → Except ε β) : List α → Except ε (List β)
  | [] => Except.ok []
  | a :: l =>
    match f a with
    | Except.error e => Except.error e
    | Except.ok b =>
      match mapME f l with
      | Except.error e => Except.error e
      | Except.ok bs => Except.ok (b :: bs)

/-- `true` on `Except.ok`. -/
def exceptOk {ε α : Type} : Except ε α → Bool
  | Except.ok _ => true
  | Except.error _ => false

/-- Body of the `make_dark` group loop (lines 449–480) for one group:
resolves the master-bias path — `biaspath = self.biaspaths[corr_bias]`
(line 472) is a bare dict access, so a missing key is an uncaught
`KeyError`, modelled as `Except.error` carrying the key.  On success the
group's manifest entry `(tuple(dark_val), fpath)` is produced.
`mbiaspath` is the caller override; `do_bias=True` is assumed. -/
def darkGroupBuild (cfg : Config) (bm : Manifest) (mbiaspath : Option String)
    (sd delim : String) (g : GroupVal × List Row) :
    Except (List HVal) (List HVal × String) :=
  let dv := tupVal g.1
  let fpath := sd ++ "/" ++ fnameOf delim dv
  match mbiaspath with
  | some _ => Except.ok (dv, fpath)
  | none =>
    match lookupD bm (darkCorrBias cfg g.2) with
    | none => Except.error (darkCorrBias cfg g.2)
    | some _ => Except.ok (dv, fpath)

/-- `Preprocessor.make_dark` (lines 425–491): group, resolve bias, combine
and subtract (delegated externally), record `darkpaths[tuple(dark_val)]`.
An unresolved bias key propagates as `Except.error`. -/
def make_dark (cfg : Config) (summary : List Row) (bm : Manifest)
    (mbiaspath : Option String) (sd delim : String) : Except (List HVal) Manifest :=
  (mapME (darkGroupBuild cfg bm mbiaspath sd delim) (dgroups cfg summary)).map
    (fun ys => ys.foldl (fun m kp => dictInsert m kp.1 kp.2) [])

/-- Python `Path(f).name`. -/
def baseName (s : String) : String :=
  String.mk ((splitOnChar '/' s.data).getLastD [])

/-- Join character lists with a separator character. -/
def joinChar (c : Char) : List (List Char) → List Char
  | [] => []
  | [x] => x
  | x :: xs => x ++ c :: joinChar c xs

/-- Python `Path(name).stem`: the name without its final suffix (a lone
leading-dot name keeps itself). -/
def stemChars (l : List Char) : List Char :=
  let parts := splitOnChar '.' l
  if parts.length ≤ 1 then l
  else if l.head? = some '.' ∧ parts.length = 2 then l
  else joinChar '.' parts.dropLast

/-- `flat_orig_path.parent / (flat_orig_path.stem + "_BD.fits")`
(lines 575–576). -/
def bdPath (f : String) : String :=
  let comps := splitOnChar '/' f.data
  String.mk (joinChar '/' (comps.dropLast ++ [stemChars (comps.getLastD []) ++ "_BD.fits".data]))

/-- One per-frame `yfu.bdf_process` call of the `make_flat` inner loop
(lines 573–585): source frame, intermediate output path, the resolved
bias/dark paths, and the dtype passed (`"int16"`, line 582). -/
structure FlatInterOp where
  srcFile : String
  outFile : String
  biaspath : String
  darkpath : String
  dtype : String
deriving DecidableEq

/-- The `yfu.combine_ccd` call of `make_flat` (lines 592–598): inputs are
the intermediate corrected files, output dtype is the caller's `dtype`,
and `normalize_average=True`. -/
structure FlatCombineOp where
  inputs : List String
  output : String
  dtype : String
  normalize_average : Bool
deriving DecidableEq

/-- The work of `make_flat` on one group. -/
structure FlatGroupBuild where
  inters : List FlatInterOp
  comb : FlatCombineOp
deriving DecidableEq

/-- Body of the `make_flat` group loop (lines 546–600): resolve bias then
dark (bare dict accesses, lines 557 and 569 — uncaught `KeyError` on a
miss), bias/dark-correct every raw frame of the group into an `_BD.fits`
intermediate at dtype `int16`, then combine the intermediates with
`normalize_average=True` at the caller's dtype. -/
def flatGroupBuild (cfg : Config) (bm dm : Manifest) (sd delim dtype : String)
    (g : GroupVal × List Row) :
    Except (List HVal) (List HVal × String × FlatGroupBuild) :=
  match lookupD bm (flatCorrBias cfg g.2) with
  | none => Except.error (flatCorrBias cfg g.2)
  | some bp =>
    match lookupD dm (flatCorrDark cfg g.2) with
    | none => Except.error (flatCorrDark cfg g.2)
    | some dp =>
      let inters := g.2.map (fun r =>
        let f := render (rowGet r "file")
        ({ srcFile := f, outFile := bdPath f, biaspath := bp, darkpath := dp,
           dtype := "int16" } : FlatInterOp))
      let fv := tupVal g.1
      let fpath := sd ++ "/" ++ fnameOf delim fv
      Except.ok (fv, fpath,
        { inters := inters,
          comb := { inputs := inters.map (fun op => op.outFile), output := fpath,
                    dtype := dtype, normalize_average := true } })

/-- `Preprocessor.make_flat` (lines 522–611) with `do_bias=do_dark=True` and
no caller overrides: the manifest `flatpaths` plus the per-group operation
record.  An unresolved bias or dark key propagates as `Except.error`. -/
def make_flat (cfg : Config) (summary : List Row) (bm dm : Manifest)
    (sd delim dtype : String) :
    Except (List HVal) (Manifest × List FlatGroupBuild) :=
  (mapME (flatGroupBuild cfg bm dm sd delim dtype) (fgroups cfg summary)).map
    (fun ys =>
      (ys.foldl (fun m kp => dictInsert m kp.1 kp.2.1) [],
       ys.map (fun kp => kp.2.2)))

/-- The text-manifest writing loop shared by the three builders
(`for p in list(xpaths.values()): ll.write(f"{str(p)}\n")`): the file is a
list of lines, one appended per iteration. -/
def writeLinesLoop (ps : List String) : List String :=
  ps.foldl (fun acc p => acc ++ [p]) []

/-- The `biaspaths.list` text file written by `make_bias` (lines 389–391). -/
def biasListFile (cfg : Config) (summary : List Row) (sd delim : String) : List String :=
  writeLinesLoop ((make_bias cfg summary sd delim).map (fun kv => kv.2))

/-- The `darkpaths.list` text file written by `make_dark` (lines 484–486);
`none` when the build aborted before reaching the write. -/
def darkListFile (cfg : Config) (summary : List Row) (bm : Manifest)
    (mbiaspath : Option String) (sd delim : String) : Option (List String) :=
  match make_dark cfg summary bm mbiaspath sd delim with
  | Except.ok m => some (writeLinesLoop (m.map (fun kv => kv.2)))
  | Except.error _ => none

/-- The `flatpaths.list` text file written by `make_flat` (lines 604–606). -/
def flatListFile (cfg : Config) (summary : List Row) (bm dm : Manifest)
    (sd delim dtype : String) : Option (List String) :=
  match make_flat cfg summary bm dm sd delim dtype with
  | Except.ok md => some (writeLinesLoop (md.1.map (fun kv => kv.2)))
  | Except.error _ => none

/-- The `bdf_process` record of `do_preproc` for one object frame. -/
structure ReduceRec where
  fpath : String
  savepath : String
  biaspath : Option String
  darkpath : Option String
  flatpath : Option String
deriving DecidableEq

/-- A `do_preproc` warning: which correction was unavailable, for which key
(lines 666, 682, 698). -/
inductive MissWarn
  | bias : List HVal → MissWarn
  | dark : List HVal → MissWarn
  | flat : List HVal → MissWarn
deriving DecidableEq

/-- The `try: path = self.xpaths[corr] except KeyError: path = None; warn(...)`
pattern of `do_preproc`. -/
def tryLookup (m : Manifest) (k : List HVal) (w : List HVal → MissWarn) :
    Option String × List MissWarn :=
  match lookupD m k with
  | some p => (some p, [])
  | none => (none, [w k])

/-- `row = self.summary[self.summary["file"].values == str(fpath)]` (line 651). -/
def rowsFor (summary : List Row) (f : String) : List Row :=
  summary.filter (fun r => decide (rowGet r "file" = HVal.str f))

/-- Body of the `do_preproc` loop (lines 648–708) for one object frame, with
`do_bias=do_dark=do_flat=True` and no caller overrides: savepath under the
original filename, the three guarded lookups, and their warnings. -/
def reduceOne (cfg : Config) (summary : List Row) (bm dm fm : Manifest)
    (savedir f : String) : ReduceRec × List MissWarn :=
  let rows := rowsFor summary f
  let b := tryLookup bm (preprocCorrBias cfg rows) MissWarn.bias
  let d := tryLookup dm (preprocCorrDark cfg rows) MissWarn.dark
  let fl := tryLookup fm (preprocCorrFlat cfg rows) MissWarn.flat
  ({ fpath := f, savepath := savedir ++ "/" ++ baseName f,
     biaspath := b.1, darkpath := d.1, flatpath := fl.1 },
   b.2 ++ d.2 ++ fl.2)

/-- Outcome of `do_preproc`: the `bdf_process` records, the emitted
warnings, and `self.reducedpaths` (the `savepaths` list, appended to at
line 650 before any lookup). -/
structure PreprocResult where
  records : List ReduceRec
  warnings : List MissWarn
  reducedpaths : List String
deriving DecidableEq

/-- `Preprocessor.do_preproc` (lines 636–716) over `self.objpaths`. -/
def do_preproc (cfg : Config) (objpaths : List String) (summary : List Row)
    (bm dm fm : Manifest) (savedir : String) : PreprocResult :=
  let steps := objpaths.map (reduceOne cfg summary bm dm fm savedir)
  { records := steps.map (fun s => s.1),
    warnings := (steps.map (fun s => s.2)).flatten,
    reducedpaths := objpaths.map (fun f => savedir ++ "/" ++ baseName f) }

lemma foldl_append_singleton (ps : List String) :
    ∀ acc : List String, ps.foldl (fun acc p => acc ++ [p]) acc = acc ++ ps := by
  induction ps with
  | nil => intro acc; simp
  | cons p ps ih => intro acc; simp [List.foldl_cons, ih]

lemma writeLinesLoop_eq (ps : List String) : writeLinesLoop ps = ps := by
  simpa using foldl_append_singleton ps []

lemma lexLe_total : ∀ a b : List Char, lexLe a b = true ∨ lexLe b a = true := by
  intro a
  induction a with
  | nil => intro b; left; simp [lexLe]
  | cons x xs ih =>
    intro b
    cases b with
    | nil => right; simp [lexLe]
    | cons y ys =>
      rcases Nat.lt_trichotomy x.toNat y.toNat with h | h | h
      · left; simp [lexLe, h]
      · rcases ih ys with h2 | h2
        · left; simp [lexLe, h, h2]
        · right; simp [lexLe, h.symm, h2]
      · right; simp [lexLe, h]

lemma lexLe_trans : ∀ a b c : List Char,
    lexLe a b = true → lexLe b c = true → lexLe a c = true := by
  intro a
  induction a with
  | nil => intro b c _ _; simp [lexLe]
  | cons x xs ih =>
    intro b c hab hbc
    cases b with
    | nil => simp [lexLe] at hab
    | cons y ys =>
      cases c with
      | nil => simp [lexLe] at hbc
      | cons z zs =>
        simp only [lexLe, Bool.or_eq_true, Bool.and_eq_true, decide_eq_true_eq] at hab hbc ⊢
        rcases hab with h1 | h1
        · rcases hbc with h2 | h2
          · left; omega
          · left; omega
        · rcases hbc with h2 | h2
          · left; omega
          · right; exact ⟨by omega, ih ys zs h1.2 h2.2⟩

instance : IsTotal String pathLe :=
  ⟨fun a b => lexLe_total a.data b.data⟩

instance : IsTrans String pathLe :=
  ⟨fun a b c => lexLe_trans a.data b.data c.data⟩

lemma splitOnChar_ne_nil (c : Char) : ∀ l : List Char, splitOnChar c l ≠ [] := by
  intro l
  induction l with
  | nil => simp [splitOnChar]
  | cons x xs ih =>
    by_cases h : x = c
    · simp [splitOnChar, h]
    · cases hr : splitOnChar c xs with
      | nil => exact absurd hr ih
      | cons y ys => simp [splitOnChar, h, hr]

lemma parseRawName_isSome (name : List Char) : (parseRawName name).isSome = true := by
  unfold parseRawName
  cases hsp : splitOnChar '-' name with
  | nil => exact absurd hsp (splitOnChar_ne_nil '-' name)
  | cons y ys =>
    have hne : y :: ys ≠ ([] : List (List Char)) := by simp
    simp [List.getLast?_eq_getLast _ hne]

lemma exceptOk_map {ε α β : Type} (f : α → β) (e : Except ε α) :
    exceptOk (e.map f) = exceptOk e := by
  cases e <;> rfl

lemma mapME_ok_false_iff {ε α β : Type} (f : α → Except ε β) (l : List α) :
    exceptOk (mapME f l) = false ↔ ∃ x ∈ l, exceptOk (f x) = false := by
  induction l with
  | nil => simp [mapME, exceptOk]
  | cons a l ih =>
    cases ha : f a with
    | error e => simp [mapME, ha, exceptOk]
    | ok b =>
      cases hl : mapME f l with
      | error e =>
        rw [hl] at ih
        simp only [mapME, ha, hl, exceptOk]
        constructor
        · intro _
          rcases ih.mp rfl with ⟨x, hx, hfx⟩
          exact ⟨x, List.mem_cons_of_mem a hx, hfx⟩
        · intro _; trivial
      | ok bs =>
        rw [hl] at ih
        simp only [mapME, ha, hl, exceptOk] at ih ⊢
        constructor
        · intro h; simp at h
        · rintro ⟨x, hx, hfx⟩
          rcases List.mem_cons.mp hx with hx | hx
          · subst hx; rw [ha] at hfx; simp [exceptOk] at hfx
          · have h2 := ih.mpr ⟨x, hx, hfx⟩
            simp at h2

lemma mapME_ok_mem {ε α β : Type} (f : α → Except ε β) :
    ∀ (l : List α) (ys : List β), mapME f l = Except.ok ys →
      ∀ y ∈ ys, ∃ x ∈ l, f x = Except.ok y := by
  intro l
  induction l with
  | nil =>
    intro ys h y hy
    simp only [mapME, Except.ok.injEq] at h
    subst h; simp at hy
  | cons a l ih =>
    intro ys h y hy
    cases ha : f a with
    | error e =>
      simp only [mapME, ha] at h
      exact absurd h (by simp)
    | ok b =>
      cases hl : mapME f l with
      | error e =>
        simp only [mapME, ha, hl] at h
        exact absurd h (by simp)
      | ok bs =>
        simp only [mapME, ha, hl, Except.ok.injEq] at h
        subst h
        rcases List.mem_cons.mp hy with hy | hy
        · exact ⟨a, List.mem_cons_self a l, by rw [ha, hy]⟩
        · rcases ih bs hl y hy with ⟨x, hx, hfx⟩
          exact ⟨x, List.mem_cons_of_mem a hx, hfx⟩

lemma dedup_const {α : Type} [DecidableEq α] (a : α) :
    ∀ (l : List α), l ≠ [] → (∀ x ∈ l, x = a) → l.dedup = [a] := by
  intro l
  induction l with
  | nil => intro h; exact absurd rfl h
  | cons x xs ih =>
    intro _ hall
    have hx : x = a := hall x (List.mem_cons_self x xs)
    cases xs with
    | nil =>
      rw [hx, List.dedup_cons_of_not_mem (List.not_mem_nil a), List.dedup_nil]
    | cons y ys =>
      have hall2 : ∀ z ∈ y :: ys, z = a := fun z hz => hall z (List.mem_cons_of_mem x hz)
      have hd := ih (by simp) hall2
      have hy : y = a := hall2 y (List.mem_cons_self y ys)
      have hmem : x ∈ y :: ys := by
        rw [hx, ← hy]; exact List.mem_cons_self y ys
      rw [List.dedup_cons_of_mem hmem, hd]

lemma groupby_const (cols : List String) (l : List Row) (g : GroupVal)
    (hne : l ≠ []) (hall : ∀ r ∈ l, keyOf cols r = g) :
    groupby cols l = [(g, l)] := by
  unfold groupby
  have h1 : (l.map (keyOf cols)).dedup = [g] := by
    apply dedup_const
    · simpa using hne
    · intro x hx
      rcases List.mem_map.mp hx with ⟨r, hr, hxr⟩
      rw [← hxr]; exact hall r hr
  rw [h1]
  simp only [List.map_cons, List.map_nil]
  congr 1
  congr 1
  apply List.filter_eq_self.mpr
  intro r hr
  exact decide_eq_true (hall r hr)

lemma darkGroupBuild_ok_false (cfg : Config) (bm : Manifest) (sd delim : String)
    (g : GroupVal × List Row) :
    exceptOk (darkGroupBuild cfg bm none sd delim g) = false ↔
      lookupD bm (darkCorrBias cfg g.2) = none := by
  unfold darkGroupBuild
  cases h : lookupD bm (darkCorrBias cfg g.2) with
  | none => simp [h, exceptOk]
  | some p => simp [h, exceptOk]

lemma flatGroupBuild_ok_false (cfg : Config) (bm dm : Manifest)
    (sd delim dtype : String) (g : GroupVal × List Row) :
    exceptOk (flatGroupBuild cfg bm dm sd delim dtype g) = false ↔
      (lookupD bm (flatCorrBias cfg g.2) = none ∨
       lookupD dm (flatCorrDark cfg g.2) = none) := by
  unfold flatGroupBuild
  cases hb : lookupD bm (flatCorrBias cfg g.2) with
  | none => simp [hb, exceptOk]
  | some bp =>
    cases hd : lookupD dm (flatCorrDark cfg g.2) with
    | none => simp [hb, hd, exceptOk]
    | some dp => simp [hb, hd, exceptOk]

lemma corrKey_eq_spec (tv : List HVal) (gk : List String) (grp : List Row)
    (h : grp ≠ []) :
    (if gk.isEmpty then tv else tv ++ gk.map (fun k => rowGet (grp.headD []) k))
      = specCalibKey tv gk (grp.head h) := by
  cases gk with
  | nil => simp [specCalibKey]
  | cons k ks =>
    have hh : grp.headD ([] : Row) = grp.head h := by
      cases grp with
      | nil => exact absurd rfl h
      | cons a l => rfl
    simp only [hh]
    simp [specCalibKey]

/-- A concrete summary row of a dark frame (EXPTIME 10). -/
def rowDk10 : Row :=
  [("file", HVal.str "dk/d1.fit"), ("OBJECT", HVal.str "dark"),
   ("EXPTIME", HVal.int 10), ("XBINNING", HVal.int 2)]

/-- A concrete summary row of a sky-flat frame (filter V, EXPTIME 10). -/
def rowFlV : Row :=
  [("file", HVal.str "fl/f1.fits"), ("OBJECT", HVal.str "skyflat"),
   ("FILTER", HVal.str "V"), ("EXPTIME", HVal.int 10), ("XBINNING", HVal.int 2)]

/-- A concrete summary row of an object frame (EXPTIME 7: matches no dark). -/
def rowObj7 : Row :=
  [("file", HVal.str "obj/o1.fits"), ("OBJECT", HVal.str "ngc"),
   ("EXPTIME", HVal.int 7), ("FILTER", HVal.str "V")]

/-- A configuration with a non-empty bias GroupKey. -/
def cfgBin : Config :=
  { cfgDef with bias_group_key := ["XBINNING"],
                dark_group_key := ["EXPTIME", "XBINNING"],
                flat_group_key := ["FILTER", "XBINNING"] }

/-- A configuration violating `bias_group_key ⊆ dark_group_key`. -/
def cfgBadSubset : Config :=
  { cfgDef with bias_group_key := ["FILTER"], flat_group_key := ["FILTER"] }

/-- A configuration whose dark GroupKey has no exposure-time-like keyword. -/
def cfgNoExp : Config := { cfgDef with dark_group_key := ["DARKTIME"] }

/-- Claim C1: for every dark group, flat group and object-frame summary-row
selection whose GroupKey values are V, the bias lookup key constructed by
`make_dark`, `make_flat` and `do_preproc` equals `bias_type_val` concatenated
with V restricted to `bias_group_key`, in `bias_group_key` order, taken from
the group's first row; when `bias_group_key` is empty the key is exactly
`tuple(bias_type_val)`. -/
theorem c1_bias_lookup_key (cfg : Config) (grpD grpF rows : List Row)
    (hD : grpD ≠ []) (hF : grpF ≠ []) (hR : rows ≠ []) :
    darkCorrBias cfg grpD =
      specCalibKey cfg.bias_type_val cfg.bias_group_key (grpD.head hD)
  ∧ flatCorrBias cfg grpF =
      specCalibKey cfg.bias_type_val cfg.bias_group_key (grpF.head hF)
  ∧ preprocCorrBias cfg rows =
      specCalibKey cfg.bias_type_val cfg.bias_group_key (rows.head hR)
  ∧ (cfg.bias_group_key = [] →
      darkCorrBias cfg grpD = cfg.bias_type_val ∧
      flatCorrBias cfg grpF = cfg.bias_type_val ∧
      preprocCorrBias cfg rows = cfg.bias_type_val) := by
  refine ⟨?_, ?_, ?_, ?_⟩
  · show (if cfg.bias_group_key.isEmpty then cfg.bias_type_val
          else cfg.bias_type_val ++
            cfg.bias_group_key.map (fun k => rowGet (grpD.headD []) k)) = _
    exact corrKey_eq_spec cfg.bias_type_val cfg.bias_group_key grpD hD
  · show (if cfg.bias_group_key.isEmpty then cfg.bias_type_val
          else cfg.bias_type_val ++
            cfg.bias_group_key.map (fun k => rowGet (grpF.headD []) k)) = _
    exact corrKey_eq_spec cfg.bias_type_val cfg.bias_group_key grpF hF
  · show (if cfg.bias_group_key.isEmpty then cfg.bias_type_val
          else cfg.bias_type_val ++
            cfg.bias_group_key.map (fun k => rowGet (rows.headD []) k)) = _
    exact corrKey_eq_spec cfg.bias_type_val cfg.bias_group_key rows hR
  · intro hbg
    refine ⟨?_, ?_, ?_⟩ <;> simp [darkCorrBias, flatCorrBias, preprocCorrBias, hbg]

/-- Witness for C1 at a concrete configuration with a non-empty bias
GroupKey and concrete one-row groups. -/
theorem c1_bias_lookup_key_witness :
    darkCorrBias cfgBin [rowDk10] =
      specCalibKey cfgBin.bias_type_val cfgBin.bias_group_key ([rowDk10].head (by simp))
  ∧ flatCorrBias cfgBin [rowFlV] =
      specCalibKey cfgBin.bias_type_val cfgBin.bias_group_key ([rowFlV].head (by simp))
  ∧ preprocCorrBias cfgBin [rowObj7] =
      specCalibKey cfgBin.bias_type_val cfgBin.bias_group_key ([rowObj7].head (by simp))
  ∧ (cfgBin.bias_group_key = [] →
      darkCorrBias cfgBin [rowDk10] = cfgBin.bias_type_val ∧
      flatCorrBias cfgBin [rowFlV] = cfgBin.bias_type_val ∧
      preprocCorrBias cfgBin [rowObj7] = cfgBin.bias_type_val) :=
  c1_bias_lookup_key cfgBin [rowDk10] [rowFlV] [rowObj7] (by simp) (by simp) (by simp)

/-- Counterexample to C2 as stated: for a configuration violating the subset
invariant the `KeyError` is indeed raised, but the `Path(rawdir).glob`
directory scan (file-system I/O, line 65) happens before the check, so the
raise does not precede all file-system I/O. -/
theorem c2_counterexample :
    InitEvent.raiseKeyError ∈ initEvents cfgBadSubset
  ∧ ioFreeUntilRaise (initEvents cfgBadSubset) = false := by decide

/-- Claim C2 (amended): constructing the `Preprocessor` with
`bias_group_key` not a subset of `dark_group_key` or of `flat_group_key`
raises `KeyError`, and conversely; the raise happens immediately after the
initial raw-directory scan, which is the only file-system access preceding
it (no further I/O or processing occurs).  Configurations satisfying both
subset relations never raise on that account. -/
theorem c2_subset_check (c : Config) :
    (InitEvent.raiseKeyError ∈ initEvents c ↔
      (subsetB c.bias_group_key c.dark_group_key = false ∨
       subsetB c.bias_group_key c.flat_group_key = false))
  ∧ (InitEvent.raiseKeyError ∈ initEvents c →
      initEvents c = [InitEvent.scanRawdir, InitEvent.raiseKeyError]) := by
  cases h1 : subsetB c.bias_group_key c.dark_group_key with
  | false => simp [initEvents, h1]
  | true =>
    cases h2 : subsetB c.bias_group_key c.flat_group_key with
    | false => simp [initEvents, h1, h2]
    | true =>
      cases h3 : exptimeKeys.all (fun k => !(c.dark_group_key.contains k)) with
      | false => simp [initEvents, h1, h2, h3]
      | true => simp [initEvents, h1, h2, h3]

/-- Witness for C2 (amended) at the violating configuration: the trace is
exactly the scan followed by the raise. -/
theorem c2_subset_check_witness :
    initEvents cfgBadSubset = [InitEvent.scanRawdir, InitEvent.raiseKeyError]
  ∧ InitEvent.raiseKeyError ∉ initEvents cfgDef :=
  ⟨(c2_subset_check cfgBadSubset).2 (by decide), by decide⟩

/-- Counterexample to C8 as stated: the default configuration's flat
GroupKey (`["FILTER"]`) contains no exposure-time-like keyword, yet no
warning is emitted — only `dark_group_key` is checked (lines 90–92). -/
theorem c8_counterexample :
    InitEvent.warnNoExptime ∉ initEvents cfgDef
  ∧ exptimeKeys.all (fun k => !(cfgDef.flat_group_key.contains k)) = true := by
  decide

/-- Claim C8 (amended): at construction, the non-fatal warning is emitted
exactly when the dark GroupKey contains no exposure-time-like keyword
(EXPTIME/EXPOSURE/EXPOS); the flat GroupKey is never checked, and
construction proceeds to completion in either case. -/
theorem c8_exptime_warning (c : Config)
    (hd : subsetB c.bias_group_key c.dark_group_key = true)
    (hf : subsetB c.bias_group_key c.flat_group_key = true) :
    (InitEvent.warnNoExptime ∈ initEvents c ↔
      exptimeKeys.all (fun k => !(c.dark_group_key.contains k)) = true)
  ∧ InitEvent.finish ∈ initEvents c := by
  cases h3 : exptimeKeys.all (fun k => !(c.dark_group_key.contains k)) with
  | false =>
    simp [initEvents, hd, hf, h3]
    simpa using h3
  | true =>
    simp [initEvents, hd, hf, h3]
    simpa using h3

/-- Witness for C8 (amended) at a configuration whose dark GroupKey lacks
an exposure-time-like keyword: the warning fires and construction finishes. -/
theorem c8_exptime_warning_witness :
    (InitEvent.warnNoExptime ∈ initEvents cfgNoExp ↔
      exptimeKeys.all (fun k => !(cfgNoExp.dark_group_key.contains k)) = true)
  ∧ InitEvent.finish ∈ initEvents cfgNoExp :=
  c8_exptime_warning cfgNoExp (by decide) (by decide)

/-- Counterexample to C3: with an empty bias manifest, `make_dark` on a
dark group raises an uncaught `KeyError` for the bias key (the result is an
error carrying the key, not a manifest missing one correction), and
`make_flat` likewise errors — nothing is skipped, no warning is emitted,
and the build does not continue. -/
theorem c3_counterexample :
    make_dark cfgDef [rowDk10] [] none "cal" "-" = Except.error [HVal.str "bias"]
  ∧ exceptOk (make_flat cfgDef [rowFlV] [] [] "cal" "-" "float32") = false :=
  ⟨rfl, rfl⟩

/-- Claim C3 (amended): during master-dark and master-flat building a
missing calibration key is an uncaught `KeyError` that aborts the whole
build — the build fails exactly when some group's bias key (or, for flats,
bias or dark key) is absent from the corresponding manifest; no per-group
skip-and-continue occurs there (only `do_preproc` catches the `KeyError`). -/
theorem c3_lookup_miss_aborts (cfg : Config) (summary : List Row)
    (bm dm : Manifest) (sd delim dtype : String) :
    (exceptOk (make_dark cfg summary bm none sd delim) = false ↔
      ∃ g ∈ dgroups cfg summary, lookupD bm (darkCorrBias cfg g.2) = none)
  ∧ (exceptOk (make_flat cfg summary bm dm sd delim dtype) = false ↔
      ∃ g ∈ fgroups cfg summary,
        (lookupD bm (flatCorrBias cfg g.2) = none ∨
         lookupD dm (flatCorrDark cfg g.2) = none)) := by
  constructor
  · unfold make_dark
    rw [exceptOk_map, mapME_ok_false_iff]
    exact exists_congr (fun g =>
      and_congr_right (fun _ => darkGroupBuild_ok_false cfg bm sd delim g))
  · unfold make_flat
    rw [exceptOk_map, mapME_ok_false_iff]
    exact exists_congr (fun g =>
      and_congr_right (fun _ => flatGroupBuild_ok_false cfg bm dm sd delim dtype g))

/-- Claim C6 concerns dead code: `rsplit('-')` always returns a non-empty
list and Python slicing never raises, so the `except IndexError` quarantine
branch of `organize_raw` is unreachable — no file is ever relocated to the
`useless` directory; a hyphenless name such as "badname.fit" parses
"successfully" (object token = whole name) and is processed as a regular
frame, entering the `newpaths` manifest. -/
theorem c6_quarantine_dead :
    (∀ name : List Char, (parseRawName name).isSome = true)
  ∧ (∀ (hdrs : String → Row) (rename : String → String) (files : List String),
      (organize_raw hdrs rename files).useless = [])
  ∧ parseRawName "badname.fit".data =
      some ("badname.fit".data, "badn".data, "ame.fit".data)
  ∧ "badname.fit" ∈ (organize_raw (fun _ => [("IMAGETYP", HVal.str "Light Frame")])
      (fun s => s) ["badname.fit"]).newpaths := by
  refine ⟨parseRawName_isSome, ?_, by rfl, by decide⟩
  intro hdrs rename files
  unfold organize_raw
  simp only
  rw [List.filter_eq_nil_iff]
  intro f _
  cases hp : parseRawName f.data with
  | none =>
    have := parseRawName_isSome f.data
    rw [hp] at this
    simp at this
  | some v =>
    obtain ⟨o, cnt, fb⟩ := v
    simp [organizeOne, hp]

/-- Claim C4: in `do_preproc`, for every object frame, a bias/dark/flat key
absent from its manifest only sets that correction's path to `None` and
emits a warning naming the correction and the key; the frame is still
processed, its output goes under its original filename in the save
directory, and its path appears in `reducedpaths`.  (`hrow` records that
the frame has a summary row, as produced by the pipeline.) -/
theorem c4_preproc_graceful (cfg : Config) (objpaths : List String)
    (summary : List Row) (bm dm fm : Manifest) (sd f : String)
    (hf : f ∈ objpaths) (_hrow : rowsFor summary f ≠ []) :
    (sd ++ "/" ++ baseName f) ∈ (do_preproc cfg objpaths summary bm dm fm sd).reducedpaths
  ∧ ∃ rec, rec ∈ (do_preproc cfg objpaths summary bm dm fm sd).records
      ∧ rec.fpath = f
      ∧ rec.savepath = sd ++ "/" ++ baseName f
      ∧ (lookupD bm (preprocCorrBias cfg (rowsFor summary f)) = none →
          rec.biaspath = none ∧
          MissWarn.bias (preprocCorrBias cfg (rowsFor summary f)) ∈
            (do_preproc cfg objpaths summary bm dm fm sd).warnings)
      ∧ (lookupD dm (preprocCorrDark cfg (rowsFor summary f)) = none →
          rec.darkpath = none ∧
          MissWarn.dark (preprocCorrDark cfg (rowsFor summary f)) ∈
            (do_preproc cfg objpaths summary bm dm fm sd).warnings)
      ∧ (lookupD fm (preprocCorrFlat cfg (rowsFor summary f)) = none →
          rec.flatpath = none ∧
          MissWarn.flat (preprocCorrFlat cfg (rowsFor summary f)) ∈
            (do_preproc cfg objpaths summary bm dm fm sd).warnings) := by
  have hwmem : ∀ w : MissWarn, w ∈ (reduceOne cfg summary bm dm fm sd f).2 →
      w ∈ (do_preproc cfg objpaths summary bm dm fm sd).warnings := by
    intro w hw
    show w ∈ ((objpaths.map (reduceOne cfg summary bm dm fm sd)).map
      (fun s => s.2)).flatten
    refine List.mem_flatten.mpr ⟨(reduceOne cfg summary bm dm fm sd f).2, ?_, hw⟩
    exact List.mem_map_of_mem _ (List.mem_map_of_mem _ hf)
  refine ⟨List.mem_map_of_mem _ hf, (reduceOne cfg summary bm dm fm sd f).1,
    ?_, rfl, rfl, ?_, ?_, ?_⟩
  · show _ ∈ (objpaths.map (reduceOne cfg summary bm dm fm sd)).map (fun s => s.1)
    exact List.mem_map_of_mem _ (List.mem_map_of_mem _ hf)
  · intro hmiss
    constructor
    · show (tryLookup bm (preprocCorrBias cfg (rowsFor summary f)) MissWarn.bias).1 = none
      rw [tryLookup, hmiss]
    · apply hwmem
      show MissWarn.bias (preprocCorrBias cfg (rowsFor summary f)) ∈
        (tryLookup bm (preprocCorrBias cfg (rowsFor summary f)) MissWarn.bias).2 ++
        (tryLookup dm (preprocCorrDark cfg (rowsFor summary f)) MissWarn.dark).2 ++
        (tryLookup fm (preprocCorrFlat cfg (rowsFor summary f)) MissWarn.flat).2
      simp [tryLookup, hmiss]
  · intro hmiss
    constructor
    · show (tryLookup dm (preprocCorrDark cfg (rowsFor summary f)) MissWarn.dark).1 = none
      rw [tryLookup, hmiss]
    · apply hwmem
      show MissWarn.dark (preprocCorrDark cfg (rowsFor summary f)) ∈
        (tryLookup bm (preprocCorrBias cfg (rowsFor summary f)) MissWarn.bias).2 ++
        (tryLookup dm (preprocCorrDark cfg (rowsFor summary f)) MissWarn.dark).2 ++
        (tryLookup fm (preprocCorrFlat cfg (rowsFor summary f)) MissWarn.flat).2
      simp [tryLookup, hmiss]
  · intro hmiss
    constructor
    · show (tryLookup fm (preprocCorrFlat cfg (rowsFor summary f)) MissWarn.flat).1 = none
      rw [tryLookup, hmiss]
    · apply hwmem
      show MissWarn.flat (preprocCorrFlat cfg (rowsFor summary f)) ∈
        (tryLookup bm (preprocCorrBias cfg (rowsFor summary f)) MissWarn.bias).2 ++
        (tryLookup dm (preprocCorrDark cfg (rowsFor summary f)) MissWarn.dark).2 ++
        (tryLookup fm (preprocCorrFlat cfg (rowsFor summary f)) MissWarn.flat).2
      simp [tryLookup, hmiss]

/-- The spec's end-to-end scenario B object manifest: one object frame whose
EXPTIME (7) matches neither dark group. -/
def objpathsB : List String := ["obj/o1.fits"]

/-- Summary table for scenario B. -/
def summaryB : List Row := [rowObj7]

/-- Bias manifest for scenario B. -/
def bmB : Manifest := [([HVal.str "bias"], "cal/bias.fits")]

/-- Dark manifest for scenario B (EXPTIME 10 and 30 only). -/
def dmB : Manifest :=
  [([HVal.str "dark", HVal.int 10], "cal/dark-10.fits"),
   ([HVal.str "dark", HVal.int 30], "cal/dark-30.fits")]

/-- Flat manifest for scenario B. -/
def fmB : Manifest := [([HVal.str "skyflat", HVal.str "V"], "cal/skyflat-V.fits")]

/-- Witness for C4 at scenario B: the dark key misses, the frame is still
reduced, goes under its original filename, appears in `reducedpaths`, and a
dark warning naming the key is emitted. -/
theorem c4_preproc_graceful_witness :
    "red/o1.fits" ∈ (do_preproc cfgDef objpathsB summaryB bmB dmB fmB "red").reducedpaths
  ∧ lookupD dmB (preprocCorrDark cfgDef (rowsFor summaryB "obj/o1.fits")) = none
  ∧ ∃ rec, rec ∈ (do_preproc cfgDef objpathsB summaryB bmB dmB fmB "red").records
      ∧ rec.fpath = "obj/o1.fits"
      ∧ rec.savepath = "red/o1.fits"
      ∧ rec.darkpath = none
      ∧ MissWarn.dark (preprocCorrDark cfgDef (rowsFor summaryB "obj/o1.fits")) ∈
          (do_preproc cfgDef objpathsB summaryB bmB dmB fmB "red").warnings := by
  have hmiss : lookupD dmB (preprocCorrDark cfgDef (rowsFor summaryB "obj/o1.fits")) = none := by
    decide
  obtain ⟨h1, rec, h2, h3, h4, _, hdk, _⟩ :=
    c4_preproc_graceful cfgDef objpathsB summaryB bmB dmB fmB "red" "obj/o1.fits"
      (by decide) (by decide)
  obtain ⟨hd1, hd2⟩ := hdk hmiss
  exact ⟨h1, hmiss, rec, h2, h3, h4, hd1, hd2⟩

/-- Claim C5: whenever `make_flat` succeeds, every group's build record
bias/dark-corrects each individual raw flat frame (one `int16` intermediate
`_BD.fits` file per raw frame of the group, not the combined stack), and
only then combines exactly those corrected files with
`normalize_average=True` at the caller-chosen dtype. -/
theorem c5_flat_per_frame (cfg : Config) (summary : List Row) (bm dm : Manifest)
    (sd delim dtype : String) (m : Manifest) (builds : List FlatGroupBuild)
    (h : make_flat cfg summary bm dm sd delim dtype = Except.ok (m, builds)) :
    ∀ b ∈ builds,
      (∀ op ∈ b.inters, op.dtype = "int16")
    ∧ b.comb.normalize_average = true
    ∧ b.comb.dtype = dtype
    ∧ b.comb.inputs = b.inters.map (fun op => op.outFile)
    ∧ (∀ op ∈ b.inters, op.outFile = bdPath op.srcFile)
    ∧ ∃ g ∈ fgroups cfg summary,
        b.inters.map (fun op => op.srcFile) =
          g.2.map (fun r => render (rowGet r "file")) := by
  intro b hb
  unfold make_flat at h
  cases hm : mapME (flatGroupBuild cfg bm dm sd delim dtype) (fgroups cfg summary) with
  | error e =>
    rw [hm] at h
    exact absurd h (by simp [Except.map])
  | ok ys =>
    rw [hm] at h
    simp only [Except.map, Except.ok.injEq, Prod.mk.injEq] at h
    obtain ⟨-, hbuilds⟩ := h
    rw [← hbuilds] at hb
    rcases List.mem_map.mp hb with ⟨y, hy, hyb⟩
    rcases mapME_ok_mem _ _ _ hm y hy with ⟨g, hg, hfg⟩
    unfold flatGroupBuild at hfg
    cases hbk : lookupD bm (flatCorrBias cfg g.2) with
    | none => rw [hbk] at hfg; exact absurd hfg (by simp)
    | some bp =>
      cases hdk : lookupD dm (flatCorrDark cfg g.2) with
      | none => rw [hbk, hdk] at hfg; exact absurd hfg (by simp)
      | some dp =>
        rw [hbk, hdk] at hfg
        simp only [Except.ok.injEq] at hfg
        have hbval : b = y.2.2 := hyb.symm
        rw [hbval, ← hfg]
        refine ⟨?_, rfl, rfl, rfl, ?_, ⟨g, hg, ?_⟩⟩
        · intro op hop
          rcases List.mem_map.mp hop with ⟨r, _, hrop⟩
          rw [← hrop]
        · intro op hop
          rcases List.mem_map.mp hop with ⟨r, _, hrop⟩
          rw [← hrop]
        · rw [List.map_map]
          rfl

/-- Witness for C5 at a concrete one-group flat scenario with matching bias
and dark manifests. -/
theorem c5_flat_per_frame_witness :
    ∃ (m : Manifest) (builds : List FlatGroupBuild),
      make_flat cfgDef [rowFlV] bmB dmB "cal" "-" "float32" = Except.ok (m, builds)
    ∧ ∀ b ∈ builds,
        (∀ op ∈ b.inters, op.dtype = "int16")
      ∧ b.comb.normalize_average = true
      ∧ b.comb.dtype = "float32"
      ∧ b.comb.inputs = b.inters.map (fun op => op.outFile)
      ∧ (∀ op ∈ b.inters, op.outFile = bdPath op.srcFile)
      ∧ ∃ g ∈ fgroups cfgDef [rowFlV],
          b.inters.map (fun op => op.srcFile) =
            g.2.map (fun r => render (rowGet r "file")) :=
  ⟨_, _, rfl, c5_flat_per_frame cfgDef [rowFlV] bmB dmB "cal" "-" "float32" _ _ rfl⟩

/-- Claim C7: for each role, the plain-text manifest written by the builder
is exactly the list of the structured manifest's values, verbatim and in
dictionary-value order (for dark and flat the text file exists whenever the
build completed), so every structured-manifest path is one of its lines. -/
theorem c7_text_manifest (cfg : Config) (summary : List Row) (bm dm : Manifest)
    (mb : Option String) (sd delim dtype : String) :
    biasListFile cfg summary sd delim =
      (make_bias cfg summary sd delim).map (fun kv => kv.2)
  ∧ (∀ kv ∈ make_bias cfg summary sd delim,
       kv.2 ∈ biasListFile cfg summary sd delim)
  ∧ (∀ m, make_dark cfg summary bm mb sd delim = Except.ok m →
       darkListFile cfg summary bm mb sd delim = some (m.map (fun kv => kv.2)))
  ∧ (∀ m builds, make_flat cfg summary bm dm sd delim dtype = Except.ok (m, builds) →
       flatListFile cfg summary bm dm sd delim dtype = some (m.map (fun kv => kv.2))) := by
  have hbias : biasListFile cfg summary sd delim =
      (make_bias cfg summary sd delim).map (fun kv => kv.2) := by
    unfold biasListFile
    exact writeLinesLoop_eq _
  refine ⟨hbias, ?_, ?_, ?_⟩
  · intro kv hkv
    rw [hbias]
    exact List.mem_map_of_mem _ hkv
  · intro m hm
    unfold darkListFile
    rw [hm]
    simp [writeLinesLoop_eq]
  · intro m builds hm
    unfold flatListFile
    rw [hm]
    simp [writeLinesLoop_eq]

/-- Witness for C7 at a concrete scenario where all three builders complete:
the dark and flat text manifests hold exactly the recorded paths. -/
theorem c7_text_manifest_witness :
    darkListFile cfgDef [rowDk10] bmB none "cal" "-" = some ["cal/dark-10.fits"]
  ∧ flatListFile cfgDef [rowFlV] bmB dmB "cal" "-" "float32" = some ["cal/skyflat-V.fits"]
  ∧ biasListFile cfgDef [rowDk10, rowFlV] "cal" "-" =
      (make_bias cfgDef [rowDk10, rowFlV] "cal" "-").map (fun kv => kv.2) :=
  ⟨(c7_text_manifest cfgDef [rowDk10] bmB dmB none "cal" "-" "float32").2.2.1
      [([HVal.str "dark", HVal.int 10], "cal/dark-10.fits")] rfl,
   (c7_text_manifest cfgDef [rowFlV] bmB dmB none "cal" "-" "float32").2.2.2
      [([HVal.str "skyflat", HVal.str "V"], "cal/skyflat-V.fits")]
      [{ inters := [{ srcFile := "fl/f1.fits", outFile := "fl/f1_BD.fits",
                      biaspath := "cal/bias.fits", darkpath := "cal/dark-10.fits",
                      dtype := "int16" }],
         comb := { inputs := ["fl/f1_BD.fits"], output := "cal/skyflat-V.fits",
                   dtype := "float32", normalize_average := true } }] rfl,
   (c7_text_manifest cfgDef [rowDk10, rowFlV] bmB dmB none "cal" "-" "float32").1⟩

/-- Claim C9: the construction-time directory scan keeps exactly the files
matching the glob `'*.fit'`, sorted; a file with any other extension
(such as `.fits`) is never in `rawpaths` and is never iterated by
`organize_raw` (hence never classified, renamed, or passed downstream). -/
theorem c9_raw_scan (files : List String) (hdrs : String → Row)
    (rename : String → String) (f : String) (hf : matchFit f = false) :
    List.Sorted pathLe (rawScan files)
  ∧ (∀ x, x ∈ rawScan files ↔ x ∈ files ∧ matchFit x = true)
  ∧ f ∉ rawScan files
  ∧ f ∉ (organize_raw hdrs rename (rawScan files)).processedSources := by
  have hmem : ∀ x, x ∈ rawScan files ↔ x ∈ files ∧ matchFit x = true := by
    intro x
    unfold rawScan
    rw [(List.perm_insertionSort pathLe _).mem_iff]
    simp [List.mem_filter]
  have hnotin : f ∉ rawScan files := by
    intro hx
    rcases (hmem f).mp hx with ⟨-, hfit⟩
    rw [hf] at hfit
    exact Bool.false_ne_true hfit
  refine ⟨List.sorted_insertionSort pathLe _, hmem, hnotin, ?_⟩
  intro hx
  exact hnotin (List.mem_of_mem_filter hx)

/-- Witness for C9 at a concrete directory listing containing a `.fits`
file. -/
theorem c9_raw_scan_witness :
    List.Sorted pathLe (rawScan ["b.fit", "c.fits", "a.fit"])
  ∧ (∀ x, x ∈ rawScan ["b.fit", "c.fits", "a.fit"] ↔
      x ∈ ["b.fit", "c.fits", "a.fit"] ∧ matchFit x = true)
  ∧ "c.fits" ∉ rawScan ["b.fit", "c.fits", "a.fit"]
  ∧ "c.fits" ∉ (organize_raw (fun _ => ([] : Row)) (fun s => s)
      (rawScan ["b.fit", "c.fits", "a.fit"])).processedSources :=
  c9_raw_scan ["b.fit", "c.fits", "a.fit"] (fun _ => ([] : Row)) (fun s => s)
    "c.fits" (by decide)

/-- The default configuration with a configurable single bias type value
(`bias_type_key=["OBJECT"]`, empty `bias_group_key`). -/
def cfg10 (v : HVal) : Config := { cfgDef with bias_type_val := [v] }

/-- Claim C10: with a single-column bias grouping (empty `bias_group_key`),
`make_bias` records the master bias under the one-element tuple of the
stringified group value, while `make_dark`/`make_flat`/`do_preproc` look it
up under the un-stringified `tuple(bias_type_val)`; the lookup therefore
succeeds exactly when `bias_type_val` is that string — in particular a
non-string (integer) `bias_type_val` always misses although the master bias
exists in the manifest. -/
theorem c10_bias_key_stringified (v : HVal) (summary : List Row) (sd delim : String)
    (h : cropByType ["OBJECT"] [v] summary ≠ []) :
    (∃ p, ([HVal.str (render v)], p) ∈ make_bias (cfg10 v) summary sd delim)
  ∧ ((∃ p, lookupD (make_bias (cfg10 v) summary sd delim) [v] = some p) ↔
      v = HVal.str (render v))
  ∧ (∀ rows : List Row,
      preprocCorrBias (cfg10 v) rows = [v] ∧
      darkCorrBias (cfg10 v) rows = [v] ∧
      flatCorrBias (cfg10 v) rows = [v])
  ∧ (∀ n : Int, v = HVal.int n →
      lookupD (make_bias (cfg10 v) summary sd delim) [v] = none) := by
  have hall : ∀ r ∈ cropByType ["OBJECT"] [v] summary,
      keyOf ["OBJECT"] r = GroupVal.scalar v := by
    intro r hr
    rcases List.mem_filter.mp hr with ⟨-, hp⟩
    simp only [List.zip, List.zipWith, List.all_cons, List.all_nil, Bool.and_true,
      decide_eq_true_eq] at hp
    simp [keyOf, hp]
  have hgb : bgroups (cfg10 v) summary =
      [(GroupVal.scalar v, cropByType ["OBJECT"] [v] summary)] := by
    show groupby ["OBJECT"] (cropByType ["OBJECT"] [v] summary) = _
    exact groupby_const ["OBJECT"] _ (GroupVal.scalar v) h hall
  have hmb : make_bias (cfg10 v) summary sd delim =
      [([HVal.str (render v)], sd ++ "/" ++ fnameOf delim [HVal.str (render v)])] := by
    unfold make_bias
    rw [hgb]
    rfl
  have hlk : ∀ k : List HVal, lookupD (make_bias (cfg10 v) summary sd delim) k =
      if ([HVal.str (render v)] : List HVal) = k then
        some (sd ++ "/" ++ fnameOf delim [HVal.str (render v)])
      else none := by
    intro k
    rw [hmb]
    unfold lookupD
    by_cases hk : ([HVal.str (render v)] : List HVal) = k
    · rw [List.find?_cons_of_pos _ (by simp [hk])]
      simp [hk]
    · rw [List.find?_cons_of_neg _ (by simp [hk]), List.find?_nil]
      simp [hk]
  refine ⟨⟨sd ++ "/" ++ fnameOf delim [HVal.str (render v)], ?_⟩, ?_, ?_, ?_⟩
  · rw [hmb]
    exact List.mem_cons_self _ _
  · constructor
    · rintro ⟨p, hp⟩
      rw [hlk] at hp
      by_cases hk : ([HVal.str (render v)] : List HVal) = [v]
      · simp only [List.cons.injEq, and_true] at hk
        exact hk.symm
      · rw [if_neg hk] at hp
        exact absurd hp (by simp)
    · intro hv
      refine ⟨sd ++ "/" ++ fnameOf delim [HVal.str (render v)], ?_⟩
      rw [hlk]
      rw [if_pos]
      conv_rhs => rw [hv]
  · intro rows
    refine ⟨?_, ?_, ?_⟩ <;>
      simp [preprocCorrBias, darkCorrBias, flatCorrBias, cfg10, cfgDef]
  · intro n hv
    subst hv
    rw [hlk]
    rw [if_neg]
    simp

/-- Witness for C10 at `bias_type_val = [0]` (an integer) and a summary with
one bias row whose OBJECT value is the integer 0: the master bias is stored
under `("0",)` yet the lookup key is `(0,)`, so the lookup misses. -/
theorem c10_bias_key_stringified_witness :
    (∃ p, ([HVal.str (render (HVal.int 0))], p) ∈
      make_bias (cfg10 (HVal.int 0)) [[("OBJECT", HVal.int 0)]] "cal" "-")
  ∧ ((∃ p, lookupD (make_bias (cfg10 (HVal.int 0)) [[("OBJECT", HVal.int 0)]] "cal" "-")
        [HVal.int 0] = some p) ↔ HVal.int 0 = HVal.str (render (HVal.int 0)))
  ∧ (∀ rows : List Row,
      preprocCorrBias (cfg10 (HVal.int 0)) rows = [HVal.int 0] ∧
      darkCorrBias (cfg10 (HVal.int 0)) rows = [HVal.int 0] ∧
      flatCorrBias (cfg10 (HVal.int 0)) rows = [HVal.int 0])
  ∧ (∀ n : Int, HVal.int 0 = HVal.int n →
      lookupD (make_bias (cfg10 (HVal.int 0)) [[("OBJECT", HVal.int 0)]] "cal" "-")
        [HVal.int 0] = none) :=
  c10_bias_key_stringified (HVal.int 0) [[("OBJECT", HVal.int 0)]] "cal" "-" (by decide)
